import Mathlib

/-!
Verification of the s3-logs-analyzer repository.

This file gives a shallow embedding, in Lean, of the date-range calculator,
the Athena polling loop, the metrics aggregator and the historical-filename
generator of the repository, and proves (or refutes) the frozen claims about
them.  Python dates are modelled as explicit year/month/day triples over the
proleptic Gregorian calendar; machine-level concerns (string formatting via
strftime, pandas column storage) are kept as close to the source as the
claims require, as documented on each definition.
-/

/-! ## Calendar model (datetime.date semantics used by src/utils.py) -/

/-- Embeds the Gregorian leap-year rule used by Python's `datetime.date`
(calendar.isleap): divisible by 4 and not by 100, or divisible by 400. -/
def isLeap (y : Int) : Bool :=
  (y % 4 == 0 && y % 100 != 0) || y % 400 == 0

/-- Embeds the number of days in a month of Python's `datetime.date`
(calendar month lengths, February depending on the leap rule). -/
def daysInMonth (y m : Int) : Int :=
  if m = 2 then (if isLeap y then 29 else 28)
  else if m = 4 ∨ m = 6 ∨ m = 9 ∨ m = 11 then 30
  else 31

/-- Embeds a Python `datetime.date` value as a year/month/day triple. -/
structure Date where
  year : Int
  month : Int
  day : Int
deriving DecidableEq, Repr

/-- The validity invariant Python's `datetime.date` constructor enforces on
month and day (year range is irrelevant to the claims). -/
def DateValid (dt : Date) : Prop :=
  1 ≤ dt.month ∧ dt.month ≤ 12 ∧ 1 ≤ dt.day ∧ dt.day ≤ daysInMonth dt.year dt.month

instance (dt : Date) : Decidable (DateValid dt) := by
  unfold DateValid
  exact inferInstance

/-- Chronological order on dates: Python compares `datetime.date` values
lexicographically on (year, month, day).  Strict version. -/
def dateLt (a b : Date) : Prop :=
  a.year < b.year ∨ (a.year = b.year ∧
    (a.month < b.month ∨ (a.month = b.month ∧ a.day < b.day)))

/-- Chronological order on dates, non-strict version. -/
def dateLe (a b : Date) : Prop :=
  a.year < b.year ∨ (a.year = b.year ∧
    (a.month < b.month ∨ (a.month = b.month ∧ a.day ≤ b.day)))

instance (a b : Date) : Decidable (dateLt a b) := by
  unfold dateLt
  exact inferInstance

instance (a b : Date) : Decidable (dateLe a b) := by
  unfold dateLe
  exact inferInstance

/-- Embeds Python's `some_date - timedelta(days=1)`: the previous calendar
day, rolling over month and year boundaries. -/
def predDate (dt : Date) : Date :=
  if 1 < dt.day then ⟨dt.year, dt.month, dt.day - 1⟩
  else if 1 < dt.month then ⟨dt.year, dt.month - 1, daysInMonth dt.year (dt.month - 1)⟩
  else ⟨dt.year - 1, 12, 31⟩

/-- Embeds Python's `some_date - timedelta(days=k)` as the k-fold previous
day. -/
def predIter : Nat → Date → Date
  | 0, dt => dt
  | k + 1, dt => predIter k (predDate dt)

/-- Cumulative days before each month in a non-leap year, as used by
Python's `date.toordinal` (the _DAYS_BEFORE_MONTH table). -/
def monthOffset (m : Int) : Int :=
  if m = 1 then 0 else if m = 2 then 31 else if m = 3 then 59
  else if m = 4 then 90 else if m = 5 then 120 else if m = 6 then 151
  else if m = 7 then 181 else if m = 8 then 212 else if m = 9 then 243
  else if m = 10 then 273 else if m = 11 then 304 else 334

/-- Embeds Python's `date.toordinal`: day 1 is January 1 of year 1 in the
proleptic Gregorian calendar. -/
def toOrdinal (dt : Date) : Int :=
  (dt.year - 1) * 365 + (dt.year - 1) / 4 - (dt.year - 1) / 100
    + (dt.year - 1) / 400
    + monthOffset dt.month + (if 2 < dt.month && isLeap dt.year then 1 else 0)
    + dt.day

/-- Embeds Python's `date.weekday()` (Monday is 0): January 1 of year 1,
ordinal 1, was a Monday. -/
def weekday (dt : Date) : Nat :=
  ((toOrdinal dt - 1) % 7).toNat

/-- Embeds `today - timedelta(days=today.weekday())` from the weekly branch
of `calculate_date_ranges` (src/utils.py line 37): the Monday of the week
containing the given date. -/
def startOfWeek (today : Date) : Date :=
  predIter (weekday today) today

/-- Embeds `calculate_date_ranges` (src/utils.py lines 27-64).  Date strings
are modelled as parsed `Date` values (`_parse_date` / `strftime` are
inverse presentation steps on the textual form); `None` arguments are
`Option.none`; `today` stands for `datetime.now().date()`.  The branch
structure mirrors the source: explicit pair echoed back, then the weekly /
monthly / quarterly computations, and any other input falls through to
returning the `start_date` / `end_date` arguments unchanged. -/
def calculate_date_ranges (frequency : Option String)
    (start_date end_date : Option Date) (today : Date) :
    Option Date × Option Date :=
  if start_date.isSome && end_date.isSome then (start_date, end_date)
  else if frequency = some "weekly" then
    let start_of_this_week := startOfWeek today
    (some (predIter 7 start_of_this_week), some (predIter 1 start_of_this_week))
  else if frequency = some "monthly" then
    let last_day_of_previous_month := predDate ⟨today.year, today.month, 1⟩
    (some ⟨last_day_of_previous_month.year, last_day_of_previous_month.month, 1⟩,
     some last_day_of_previous_month)
  else if frequency = some "quarterly" then
    let first_month_of_current_quarter := (today.month - 1) / 3 * 3 + 1
    let last_day_of_previous_quarter :=
      predDate ⟨today.year, first_month_of_current_quarter, 1⟩
    let start_month_of_previous_quarter :=
      (last_day_of_previous_quarter.month - 1) / 3 * 3 + 1
    (some ⟨last_day_of_previous_quarter.year, start_month_of_previous_quarter, 1⟩,
     some last_day_of_previous_quarter)
  else (start_date, end_date)

/-- First day of the current (incomplete) period for each recognized
frequency token, used to state that the computed range precedes it:
the week's Monday, the month's first day, or the quarter's first day. -/
def currentPeriodStart (frequency : String) (today : Date) : Date :=
  if frequency = "weekly" then startOfWeek today
  else if frequency = "monthly" then ⟨today.year, today.month, 1⟩
  else ⟨today.year, (today.month - 1) / 3 * 3 + 1, 1⟩

/-! ### Calendar lemmas -/

theorem daysInMonth_bounds (y m : Int) : 28 ≤ daysInMonth y m ∧ daysInMonth y m ≤ 31 := by
  unfold daysInMonth
  split_ifs <;> omega

theorem predDate_valid {dt : Date} (h : DateValid dt) : DateValid (predDate dt) := by
  obtain ⟨y, m, d⟩ := dt
  obtain ⟨h1, h2, h3, h4⟩ := h
  unfold predDate
  dsimp only at *
  have hb12 := daysInMonth_bounds y 12
  have hbm := daysInMonth_bounds y (m - 1)
  have hb12' := daysInMonth_bounds (y - 1) 12
  have h31 : daysInMonth (y - 1) 12 = 31 := by unfold daysInMonth; split_ifs <;> omega
  split_ifs with ha hb <;> refine ⟨?_, ?_, ?_, ?_⟩ <;> dsimp only <;> omega

theorem predDate_lt {dt : Date} (h : DateValid dt) : dateLt (predDate dt) dt := by
  obtain ⟨y, m, d⟩ := dt
  obtain ⟨h1, h2, h3, h4⟩ := h
  unfold predDate dateLt
  dsimp only at *
  split_ifs with ha hb <;> dsimp only <;> omega

theorem dateLe_refl (a : Date) : dateLe a a := by
  unfold dateLe
  omega

theorem dateLe_of_lt {a b : Date} (h : dateLt a b) : dateLe a b := by
  unfold dateLt at h
  unfold dateLe
  omega

theorem dateLe_trans {a b c : Date} (h1 : dateLe a b) (h2 : dateLe b c) : dateLe a c := by
  unfold dateLe at *
  omega

theorem dateLt_of_le_of_lt {a b c : Date} (h1 : dateLe a b) (h2 : dateLt b c) :
    dateLt a c := by
  unfold dateLe at h1
  unfold dateLt at *
  omega

theorem predIter_valid (k : Nat) {dt : Date} (h : DateValid dt) :
    DateValid (predIter k dt) := by
  induction k generalizing dt with
  | zero => exact h
  | succ n ih => exact ih (predDate_valid h)

theorem predIter_le (k : Nat) {dt : Date} (h : DateValid dt) :
    dateLe (predIter k dt) dt := by
  induction k generalizing dt with
  | zero => exact dateLe_refl dt
  | succ n ih =>
      exact dateLe_trans (ih (predDate_valid h)) (dateLe_of_lt (predDate_lt h))

/-! ### Branch evaluation lemmas for calculate_date_ranges -/

theorem calc_weekly (today : Date) :
    calculate_date_ranges (some "weekly") none none today =
      (some (predIter 7 (startOfWeek today)), some (predIter 1 (startOfWeek today))) := rfl

theorem calc_monthly (today : Date) :
    calculate_date_ranges (some "monthly") none none today =
      (some ⟨(predDate ⟨today.year, today.month, 1⟩).year,
             (predDate ⟨today.year, today.month, 1⟩).month, 1⟩,
       some (predDate ⟨today.year, today.month, 1⟩)) := rfl

theorem calc_quarterly (today : Date) :
    calculate_date_ranges (some "quarterly") none none today =
      (some ⟨(predDate ⟨today.year, (today.month - 1) / 3 * 3 + 1, 1⟩).year,
             ((predDate ⟨today.year, (today.month - 1) / 3 * 3 + 1, 1⟩).month - 1) / 3
               * 3 + 1, 1⟩,
       some (predDate ⟨today.year, (today.month - 1) / 3 * 3 + 1, 1⟩)) := rfl

theorem cps_weekly (t : Date) : currentPeriodStart "weekly" t = startOfWeek t := rfl

theorem cps_monthly (t : Date) : currentPeriodStart "monthly" t = ⟨t.year, t.month, 1⟩ := rfl

theorem cps_quarterly (t : Date) :
    currentPeriodStart "quarterly" t = ⟨t.year, (t.month - 1) / 3 * 3 + 1, 1⟩ := rfl

/-- C2: for every recognized frequency token (the spec's token set is
weekly / monthly / quarterly) with no explicit start/end dates,
`calculate_date_ranges` returns a pair of dates with start at most end, the
range lying strictly before the start of the current (incomplete) period,
and the current period start itself at most today. -/
theorem calculate_date_ranges_previous_period (freq : String) (today : Date)
    (hv : DateValid today)
    (hf : freq = "weekly" ∨ freq = "monthly" ∨ freq = "quarterly") :
    ∃ s e, calculate_date_ranges (some freq) none none today = (some s, some e) ∧
      dateLe s e ∧ dateLt e (currentPeriodStart freq today) ∧
      dateLe (currentPeriodStart freq today) today := by
  rcases hf with h | h | h <;> subst h
  · have hsw : DateValid (startOfWeek today) := predIter_valid _ hv
    refine ⟨_, _, calc_weekly today, ?_, ?_, ?_⟩
    · show dateLe (predIter 6 (predDate (startOfWeek today))) (predDate (startOfWeek today))
      exact predIter_le 6 (predDate_valid hsw)
    · rw [cps_weekly]
      show dateLt (predDate (startOfWeek today)) (startOfWeek today)
      exact predDate_lt hsw
    · rw [cps_weekly]
      exact predIter_le _ hv
  · have hv1 : DateValid ⟨today.year, today.month, 1⟩ := by
      unfold DateValid at *
      dsimp only at *
      have hb := daysInMonth_bounds today.year today.month
      omega
    have hvL := predDate_valid hv1
    refine ⟨_, _, calc_monthly today, ?_, ?_, ?_⟩
    · unfold DateValid at hvL
      unfold dateLe
      dsimp only
      omega
    · rw [cps_monthly]
      exact predDate_lt hv1
    · rw [cps_monthly]
      unfold DateValid at hv
      unfold dateLe
      dsimp only
      omega
  · have hv1 : DateValid ⟨today.year, (today.month - 1) / 3 * 3 + 1, 1⟩ := by
      unfold DateValid at *
      dsimp only at *
      have hb := daysInMonth_bounds today.year ((today.month - 1) / 3 * 3 + 1)
      omega
    have hvL := predDate_valid hv1
    refine ⟨_, _, calc_quarterly today, ?_, ?_, ?_⟩
    · unfold DateValid at hvL
      unfold dateLe
      dsimp only
      omega
    · rw [cps_quarterly]
      exact predDate_lt hv1
    · rw [cps_quarterly]
      unfold DateValid at hv
      unfold dateLe
      dsimp only
      omega

/-- Witness for C2 at the concrete date 2024-04-15 with the monthly token. -/
theorem calculate_date_ranges_previous_period_witness :
    DateValid ⟨2024, 4, 15⟩ ∧
    (∃ s e, calculate_date_ranges (some "monthly") none none ⟨2024, 4, 15⟩ = (some s, some e) ∧
      dateLe s e ∧ dateLt e (currentPeriodStart "monthly" ⟨2024, 4, 15⟩) ∧
      dateLe (currentPeriodStart "monthly" ⟨2024, 4, 15⟩) ⟨2024, 4, 15⟩) :=
  ⟨by decide,
   calculate_date_ranges_previous_period "monthly" ⟨2024, 4, 15⟩ (by decide)
     (Or.inr (Or.inl rfl))⟩

/-- C7: on any current date in April, the quarterly branch returns
January 1 through March 31 of the same year. -/
theorem calculate_date_ranges_quarterly_april (today : Date) (hv : DateValid today)
    (hm : today.month = 4) :
    calculate_date_ranges (some "quarterly") none none today =
      (some ⟨today.year, 1, 1⟩, some ⟨today.year, 3, 31⟩) := by
  rw [calc_quarterly, hm]
  have h4 : ((4 : Int) - 1) / 3 * 3 + 1 = 4 := by decide
  rw [h4]
  have hpd : predDate ⟨today.year, 4, 1⟩ = ⟨today.year, 3, 31⟩ := by
    unfold predDate daysInMonth
    norm_num
  rw [hpd]
  have h1 : ((3 : Int) - 1) / 3 * 3 + 1 = 1 := by decide
  dsimp only
  rw [h1]

/-- Witness for C7 at the concrete date 2024-04-15. -/
theorem calculate_date_ranges_quarterly_april_witness :
    DateValid ⟨2024, 4, 15⟩ ∧
    calculate_date_ranges (some "quarterly") none none ⟨2024, 4, 15⟩ =
      (some ⟨2024, 1, 1⟩, some ⟨2024, 3, 31⟩) :=
  ⟨by decide, calculate_date_ranges_quarterly_april ⟨2024, 4, 15⟩ (by decide) rfl⟩

/-- C9: with no explicit date pair and an unrecognized frequency (such as
daily, or no frequency at all), `calculate_date_ranges` raises no error and
returns the start_date / end_date arguments unchanged. -/
theorem calculate_date_ranges_unrecognized (frequency : Option String)
    (start_date end_date : Option Date) (today : Date)
    (hno : ¬(start_date.isSome = true ∧ end_date.isSome = true))
    (hw : frequency ≠ some "weekly") (hm : frequency ≠ some "monthly")
    (hq : frequency ≠ some "quarterly") :
    calculate_date_ranges frequency start_date end_date today = (start_date, end_date) := by
  have h1 : (start_date.isSome && end_date.isSome) = false := by
    cases hs : start_date.isSome <;> cases he : end_date.isSome <;> simp_all
  unfold calculate_date_ranges
  rw [h1]
  simp only [Bool.false_eq_true, if_false]
  rw [if_neg hw, if_neg hm, if_neg hq]

/-- Witness for C9: frequency daily with both date arguments absent. -/
theorem calculate_date_ranges_unrecognized_witness :
    calculate_date_ranges (some "daily") none none ⟨2024, 1, 1⟩ = (none, none) :=
  calculate_date_ranges_unrecognized (some "daily") none none ⟨2024, 1, 1⟩
    (by simp) (by decide) (by decide) (by decide)

/-! ## Athena polling loop (src/aws_athena_query.py lines 40-66) -/

/-- Observable result of one call to `wait_athena_query_to_succeed`.
`success` is the plain return on a SUCCEEDED poll; `execFailed` is the
RuntimeError raised on FAILED/CANCELLED, carrying the execution id and the
terminal state from its message; `timedOut` is the TimeoutError raised once
the accumulated sleep time exceeds the timeout, carrying the timeout from
its message; `loopExhausted` is the silent plain return reached when the
bounded `for` loop finishes all 999999 iterations without any of the
above (in Python this return of None is indistinguishable from success). -/
inductive WaitOutcome where
  | success : WaitOutcome
  | execFailed (execId status : String) : WaitOutcome
  | timedOut (timeout : Nat) : WaitOutcome
  | loopExhausted : WaitOutcome
deriving DecidableEq, Repr

/-- Embeds the body of the `for _ in range(999999)` loop of
`wait_athena_query_to_succeed`.  `poll i` is the state string returned by
the i-th `get_query_execution` call; `fuel` is the number of loop
iterations left; `elapsed` is the accumulated sleep time.  Each iteration
checks SUCCEEDED, then FAILED/CANCELLED, otherwise sleeps `delta` seconds,
adds `delta` to `elapsed`, and raises TimeoutError when `elapsed` exceeds
`timeout`.  No cancellation request is ever issued to the remote
execution: the loop performs status reads only. -/
def waitLoop (poll : Nat → String) (execId : String) (delta timeout : Nat) :
    Nat → Nat → Nat → WaitOutcome
  | 0, _, _ => .loopExhausted
  | fuel + 1, i, elapsed =>
    let status := poll i
    if status = "SUCCEEDED" then .success
    else if status = "FAILED" ∨ status = "CANCELLED" then .execFailed execId status
    else
      let elapsed2 := elapsed + delta
      if timeout < elapsed2 then .timedOut timeout
      else waitLoop poll execId delta timeout fuel (i + 1) elapsed2

/-- Embeds `wait_athena_query_to_succeed(bsm, exec_id, delta, timeout)`:
the loop starts with 999999 iterations of fuel, polling index 0 and zero
accumulated wait. -/
def wait_athena_query_to_succeed (poll : Nat → String) (execId : String)
    (delta : Nat := 1) (timeout : Nat := 30) : WaitOutcome :=
  waitLoop poll execId delta timeout 999999 0 0

theorem waitLoop_shape (poll : Nat → String) (execId : String) (delta timeout : Nat) :
    ∀ fuel i elapsed,
      waitLoop poll execId delta timeout fuel i elapsed = .loopExhausted ∨
      waitLoop poll execId delta timeout fuel i elapsed = .success ∨
      (∃ s, (s = "FAILED" ∨ s = "CANCELLED") ∧
        waitLoop poll execId delta timeout fuel i elapsed = .execFailed execId s) ∨
      waitLoop poll execId delta timeout fuel i elapsed = .timedOut timeout := by
  intro fuel
  induction fuel with
  | zero => intro i elapsed; exact Or.inl rfl
  | succ n ih =>
      intro i elapsed
      unfold waitLoop
      dsimp only
      split_ifs with h1 h2 h3
      · exact Or.inr (Or.inl rfl)
      · exact Or.inr (Or.inr (Or.inl ⟨poll i, h2, rfl⟩))
      · exact Or.inr (Or.inr (Or.inr rfl))
      · exact ih (i + 1) (elapsed + delta)

theorem waitLoop_success_polled (poll : Nat → String) (execId : String)
    (delta timeout : Nat) :
    ∀ fuel i elapsed,
      waitLoop poll execId delta timeout fuel i elapsed = .success →
      ∃ j, poll j = "SUCCEEDED" := by
  intro fuel
  induction fuel with
  | zero => intro i elapsed h; exact absurd h (by simp [waitLoop])
  | succ n ih =>
      intro i elapsed h
      unfold waitLoop at h
      dsimp only at h
      split_ifs at h with h1 h2 h3
      · exact ⟨i, h1⟩
      · exact ih (i + 1) (elapsed + delta) h

theorem waitLoop_no_exhaust (poll : Nat → String) (execId : String)
    (delta timeout : Nat) :
    ∀ fuel i elapsed, elapsed ≤ timeout → timeout < elapsed + fuel * delta →
      waitLoop poll execId delta timeout fuel i elapsed ≠ .loopExhausted := by
  intro fuel
  induction fuel with
  | zero => intro i elapsed hle hlt; omega
  | succ n ih =>
      intro i elapsed hle hlt
      unfold waitLoop
      dsimp only
      split_ifs with h1 h2 h3
      · simp
      · simp
      · simp
      · refine ih (i + 1) (elapsed + delta) (by omega) ?_
        have hm : (n + 1) * delta = n * delta + delta := by ring
        omega

/-- C1 (amended): provided the polling interval is at least one second and
the timeout is below 999999 times that interval (so the bounded loop
cannot run out of iterations first), every polling run of
`wait_athena_query_to_succeed` has exactly three outcomes: a normal return,
which only happens after some poll observed SUCCEEDED; a RuntimeError
carrying the execution id and the FAILED or CANCELLED terminal state; or a
TimeoutError carrying the timeout.  The model issues no cancellation of
the remote execution in any branch. -/
theorem wait_athena_query_outcomes (poll : Nat → String) (execId : String)
    (delta timeout : Nat) (hd : 1 ≤ delta) (ht : timeout < 999999 * delta) :
    (wait_athena_query_to_succeed poll execId delta timeout = .success ∨
      (∃ s, (s = "FAILED" ∨ s = "CANCELLED") ∧
        wait_athena_query_to_succeed poll execId delta timeout = .execFailed execId s) ∨
      wait_athena_query_to_succeed poll execId delta timeout = .timedOut timeout) ∧
    (wait_athena_query_to_succeed poll execId delta timeout = .success →
      ∃ j, poll j = "SUCCEEDED") := by
  constructor
  · have hs := waitLoop_shape poll execId delta timeout 999999 0 0
    have hn := waitLoop_no_exhaust poll execId delta timeout 999999 0 0
      (by omega) (by omega)
    unfold wait_athena_query_to_succeed
    rcases hs with h | h
    · exact absurd h hn
    · exact h
  · exact waitLoop_success_polled poll execId delta timeout 999999 0 0

/-- Witness for C1 (amended) with a run whose first poll is SUCCEEDED. -/
theorem wait_athena_query_outcomes_witness :
    (wait_athena_query_to_succeed (fun _ => "SUCCEEDED") "exec-1" 1 30 = .success ∨
      (∃ s, (s = "FAILED" ∨ s = "CANCELLED") ∧
        wait_athena_query_to_succeed (fun _ => "SUCCEEDED") "exec-1" 1 30 =
          .execFailed "exec-1" s) ∨
      wait_athena_query_to_succeed (fun _ => "SUCCEEDED") "exec-1" 1 30 = .timedOut 30) ∧
    (wait_athena_query_to_succeed (fun _ => "SUCCEEDED") "exec-1" 1 30 = .success →
      ∃ j, (fun _ : Nat => "SUCCEEDED") j = "SUCCEEDED") :=
  wait_athena_query_outcomes (fun _ => "SUCCEEDED") "exec-1" 1 30 (by norm_num) (by norm_num)

theorem waitLoop_running_delta_zero (execId : String) (timeout : Nat) :
    ∀ fuel i, waitLoop (fun _ => "RUNNING") execId 0 timeout fuel i 0 = .loopExhausted := by
  intro fuel
  induction fuel with
  | zero => intro i; rfl
  | succ n ih =>
      intro i
      unfold waitLoop
      simp only [String.reduceEq, if_false, or_self, Nat.add_zero]
      exact ih (i + 1)

/-- Counterexample to C1 as stated: with delta = 0 and a query that stays
RUNNING, the loop spins through all 999999 iterations with zero
accumulated wait, never exceeds the timeout, and then returns normally
without any poll having observed SUCCEEDED: a fourth outcome (a silent
normal return) beyond the three the claim allows. -/
theorem wait_athena_query_fourth_outcome :
    wait_athena_query_to_succeed (fun _ => "RUNNING") "exec-1" 0 30 = .loopExhausted ∧
    ¬(wait_athena_query_to_succeed (fun _ => "RUNNING") "exec-1" 0 30 = .success ∨
      (∃ s, (s = "FAILED" ∨ s = "CANCELLED") ∧
        wait_athena_query_to_succeed (fun _ => "RUNNING") "exec-1" 0 30 =
          .execFailed "exec-1" s) ∨
      wait_athena_query_to_succeed (fun _ => "RUNNING") "exec-1" 0 30 = .timedOut 30) := by
  have h : wait_athena_query_to_succeed (fun _ => "RUNNING") "exec-1" 0 30 = .loopExhausted :=
    waitLoop_running_delta_zero "exec-1" 30 999999 0
  refine ⟨h, ?_⟩
  rw [h]
  rintro (hc | ⟨s, _, hc⟩ | hc) <;> exact WaitOutcome.noConfusion hc


/-! ## Log rows and derived columns (src/utils.py, src/app.py) -/

/-- Does the first character list start with the second one? -/
def listLeads : List Char → List Char → Bool
  | [], _ => true
  | _ :: _, [] => false
  | a :: as, b :: bs => a == b && listLeads as bs

/-- Does the character list `hay` contain `needle` as a contiguous run? -/
def listHasRun (needle : List Char) : List Char → Bool
  | [] => needle.isEmpty
  | c :: rest => listLeads needle (c :: rest) || listHasRun needle rest

/-- Embeds the pandas substring test `series.str.contains(pat)` for the
literal pattern used in `analyze_metrics` (note the source passes
"meta.json" where the dot is regex-any; the substring reading is the
intended one and agrees with it on every key without an exotic
meta-X-json name, and the meta-invariance claim is insensitive to the
difference because the same filter is applied inside the function). -/
def strContainsSub (s pat : String) : Bool :=
  listHasRun pat.data s.data

/-- Embeds Python's `x.split(sep)` for a one-character separator, over the
character list of the string: splitting the empty string yields one empty
part, and every separator occurrence opens a new part. -/
def splitCharList (sep : Char) : List Char → List (List Char)
  | [] => [[]]
  | c :: rest =>
    let r := splitCharList sep rest
    if c == sep then [] :: r
    else
      match r with
      | [] => [[c]]
      | h :: t => (c :: h) :: t

/-- Embeds Python's `x.split(sep)` producing strings. -/
def splitChar (sep : Char) (s : String) : List String :=
  (splitCharList sep s.data).map String.mk

/-- Embeds the `top_level_key` derivation of `prepare_df`
(src/utils.py line 372): `x.split("/")[0]`, with no sentinel
normalization. -/
def prepare_top_level_key (key : String) : String :=
  (splitChar '/' key).headD ""

/-- Embeds the `top_level_key` derivation of `generate_full_report_email`
in src/app.py (lines 173-175): `x.split("/")[0]` followed by the column
replace of the sentinel `-` value with `default`. -/
def app_top_level_key (key : String) : String :=
  let t := (splitChar '/' key).headD ""
  if t = "-" then "default" else t

/-- Embeds the `project` column of `extract_key_components`
(src/utils.py lines 139-141): `x.split("/")[1] if len(...) > 1 else "NA"`. -/
def projectOf (key : String) : String :=
  (splitChar '/' key).getD 1 "NA"

/-- Embeds the `feature` column of `extract_key_components`
(src/utils.py lines 142-144): `x.split("/")[2] if len(...) > 2 else "NA"`. -/
def featureOf (key : String) : String :=
  (splitChar '/' key).getD 2 "NA"

/-- Embeds the `fileformat` column of `extract_key_components`
(src/utils.py lines 145-151): the stem of the part after the last
underscore, demoted to Other when it still contains a slash, and NA for
keys without an underscore. -/
def fileformatOf (key : String) : String :=
  let lastPart := (splitChar '_' key).getLastD ""
  let stem := (splitChar '.' lastPart).headD ""
  if stem.data.contains '/' then "Other"
  else if 1 < (splitChar '_' key).length then stem
  else "NA"

/-- Embeds one prepared log row as consumed by `analyze_metrics`: the raw
columns the metrics read (key, remoteip, referrer byte columns) together
with the columns `prepare_df` derives (method from the operation code,
top_level_key from the key, country from the IP lookup).  The geolocation
and URL-parsing enrichment are external lookups; their results are carried
as row fields. -/
structure LogRow where
  key : String
  method : String
  remoteip : String
  country : String
  referrer : String
  bytessent : Int
  objectsize : Int
  top_level_key : String
deriving DecidableEq, Repr

/-- Embeds pandas `nunique()`: the number of distinct values in a column. -/
def nuniqueStr (xs : List String) : Nat :=
  xs.toFinset.card

/-- The distinct values of a list in order of first appearance, matching
the stable grouping order pandas `value_counts` uses for tie-breaking. -/
def firstOccurrences (xs : List String) : List String :=
  xs.foldl (fun acc x => if x ∈ acc then acc else acc ++ [x]) []

/-- Stable insert of a counted value into a list sorted by descending
count: the new pair goes before the first strictly smaller count. -/
def insertByCount (p : String × Nat) : List (String × Nat) → List (String × Nat)
  | [] => [p]
  | q :: rest => if q.2 < p.2 then p :: q :: rest else q :: insertByCount p rest

/-- Stable insertion sort by descending count. -/
def sortByCountDesc : List (String × Nat) → List (String × Nat)
  | [] => []
  | p :: rest => insertByCount p (sortByCountDesc rest)

/-- Embeds pandas `series.value_counts().to_dict()`: each distinct value
with its frequency, ordered by descending count with ties in first
appearance order. -/
def valueCounts (xs : List String) : List (String × Nat) :=
  sortByCountDesc ((firstOccurrences xs).map
    (fun v => (v, (xs.filter (fun y => y == v)).length)))

/-- Two rank dictionaries compared as Python dicts: equality of key/value
sets, insensitive to insertion order. -/
def dictBEq (a b : List (String × Nat)) : Bool :=
  decide (a.toFinset = b.toFinset)

/-- Embeds the inner helper `add_if_different` of `analyze_metrics`
(src/utils.py lines 198-201): the interaction metric is recorded only when
the flag is on and it differs from the download metric; an absent entry is
`none`. -/
def addIfDifferent (enable : Bool) (download_metric interaction_metric : List (String × Nat)) :
    Option (List (String × Nat)) :=
  if enable && !dictBEq download_metric interaction_metric then some interaction_metric
  else none

/-- The folder scoping step of `analyze_metrics` (src/utils.py lines
156-161): keep the rows of the named folder, or all rows when no folder is
given. -/
def scopeRows (df : List LogRow) (folder_name : Option String) : List LogRow :=
  match folder_name with
  | some f => df.filter (fun r => r.top_level_key == f)
  | none => df

/-- The meta.json removal of `analyze_metrics` (src/utils.py line 164)
applied after scoping: rows whose key contains meta.json are dropped. -/
def analyzedRows (df : List LogRow) (folder_name : Option String) : List LogRow :=
  (scopeRows df folder_name).filter (fun r => !strContainsSub r.key "meta.json")

/-- The interaction subset (src/utils.py line 166): every method except
POST, PUT, DELETE. -/
def interactionRows (rows : List LogRow) : List LogRow :=
  rows.filter (fun r => !(["POST", "PUT", "DELETE"].contains r.method))

/-- The download subset (src/utils.py line 167): method GET exactly. -/
def downloadRows (rows : List LogRow) : List LogRow :=
  rows.filter (fun r => r.method == "GET")

/-- The upload subset (src/utils.py lines 173-175): method PUT or POST. -/
def uploadRows (rows : List LogRow) : List LogRow :=
  rows.filter (fun r => ["PUT", "POST"].contains r.method)

/-- Is the per-folder breakdown section computed?  Mirrors the two guards
of `analyze_metrics` (src/utils.py lines 158 and 219): a folder name is
given and is not one of the generic categories. -/
def scopedFolder : Option String → Bool
  | some f => !(["default", "athena", "FAVICON.ICO", "TEST-OBJECT"].contains f)
  | none => false

/-- The metrics dictionary returned by `analyze_metrics` (src/utils.py
lines 169-262), as a record.  Byte totals are kept as raw sums (the source
formats them with humanize.naturalsize for display); ranking dictionaries
are count-ordered association lists; entries the source adds only
conditionally (the interaction variants and the per-folder project /
feature / fileformat breakdowns) are `Option` fields, `none` when the
corresponding dictionary key is absent. -/
structure Metrics where
  total_overall_interactions_count : Nat
  total_files_downloads_count : Nat
  total_unique_files_downloaded : Nat
  total_dataset_uploaded_count : Nat
  total_dataset_downloaded_size : Int
  total_dataset_uploaded_size : Int
  unique_users_overall : Nat
  unique_users_by_download : Nat
  popular_files_by_download : List (String × Nat)
  top_user_locations_by_dowload : List (String × Nat)
  top_referrers_by_download : List (String × Nat)
  popular_files_by_interaction : Option (List (String × Nat))
  popular_locations_by_interaction : Option (List (String × Nat))
  top_referrers_by_interaction : Option (List (String × Nat))
  popular_projects_by_download : Option (List (String × Nat))
  popular_features_by_download : Option (List (String × Nat))
  popular_fileformats_by_download : Option (List (String × Nat))
  popular_projects_by_interaction : Option (List (String × Nat))
  popular_features_by_interaction : Option (List (String × Nat))
  popular_fileformats_by_interaction : Option (List (String × Nat))
deriving DecidableEq, Repr

/-- Embeds `analyze_metrics(df, folder_name, enable_interaction_metrics)`
(src/utils.py lines 155-262).  The `project` / `feature` / `fileformat`
columns `extract_key_components` adds to the scoped frame are modelled by
applying the corresponding derivation functions to each row key where the
columns are read (the derivation is row-wise, so adding the columns before
the meta.json filter, as the source does, reads the same values). -/
def analyze_metrics (df : List LogRow) (folder_name : Option String)
    (enable_interaction_metrics : Bool) : Metrics :=
  let folder_df := analyzedRows df folder_name
  let interaction_df := interactionRows folder_df
  let download_df := downloadRows folder_df
  let upload_df := uploadRows folder_df
  let scopedB := scopedFolder folder_name
  { total_overall_interactions_count := interaction_df.length
    total_files_downloads_count := download_df.length
    total_unique_files_downloaded := nuniqueStr (download_df.map (fun r => r.key))
    total_dataset_uploaded_count := nuniqueStr (upload_df.map (fun r => r.key))
    total_dataset_downloaded_size := (download_df.map (fun r => r.bytessent)).sum
    total_dataset_uploaded_size := (upload_df.map (fun r => r.objectsize)).sum
    unique_users_overall := nuniqueStr (folder_df.map (fun r => r.remoteip))
    unique_users_by_download := nuniqueStr (download_df.map (fun r => r.remoteip))
    popular_files_by_download := (valueCounts (download_df.map (fun r => r.key))).take 10
    top_user_locations_by_dowload :=
      (valueCounts (download_df.map (fun r => r.country))).take 5
    top_referrers_by_download := (valueCounts (download_df.map (fun r => r.referrer))).take 5
    popular_files_by_interaction :=
      addIfDifferent enable_interaction_metrics
        ((valueCounts (download_df.map (fun r => r.key))).take 10)
        ((valueCounts (interaction_df.map (fun r => r.key))).take 10)
    popular_locations_by_interaction :=
      addIfDifferent enable_interaction_metrics
        ((valueCounts (download_df.map (fun r => r.country))).take 5)
        ((valueCounts (interaction_df.map (fun r => r.country))).take 5)
    top_referrers_by_interaction :=
      addIfDifferent enable_interaction_metrics
        ((valueCounts (download_df.map (fun r => r.referrer))).take 5)
        ((valueCounts (interaction_df.map (fun r => r.referrer))).take 5)
    popular_projects_by_download :=
      if scopedB then some ((valueCounts (download_df.map (fun r => projectOf r.key))).take 5)
      else none
    popular_features_by_download :=
      if scopedB then some ((valueCounts (download_df.map (fun r => featureOf r.key))).take 5)
      else none
    popular_fileformats_by_download :=
      if scopedB then
        some ((valueCounts (download_df.map (fun r => fileformatOf r.key))).take 5)
      else none
    popular_projects_by_interaction :=
      if scopedB then
        addIfDifferent enable_interaction_metrics
          ((valueCounts (download_df.map (fun r => projectOf r.key))).take 5)
          ((valueCounts (interaction_df.map (fun r => projectOf r.key))).take 5)
      else none
    popular_features_by_interaction :=
      if scopedB then
        addIfDifferent enable_interaction_metrics
          ((valueCounts (download_df.map (fun r => featureOf r.key))).take 5)
          ((valueCounts (interaction_df.map (fun r => featureOf r.key))).take 5)
      else none
    popular_fileformats_by_interaction :=
      if scopedB then
        addIfDifferent enable_interaction_metrics
          ((valueCounts (download_df.map (fun r => fileformatOf r.key))).take 5)
          ((valueCounts (interaction_df.map (fun r => fileformatOf r.key))).take 5)
      else none }

/-! ## Claims about the metrics aggregator -/

theorem nunique_filter_map_le (p : LogRow → Bool) (f : LogRow → String)
    (rows : List LogRow) :
    nuniqueStr ((rows.filter p).map f) ≤ nuniqueStr (rows.map f) := by
  unfold nuniqueStr
  apply Finset.card_le_card
  intro x hx
  rw [List.mem_toFinset] at hx ⊢
  exact List.map_subset f (List.Sublist.subset (List.filter_sublist rows)) hx

/-- C3: for every input table and scope, the downloading users (rows with
method GET) are a subset of the scoped rows, so the distinct-IP count over
downloads never exceeds the distinct-IP count overall. -/
theorem analyze_metrics_unique_users_monotone (df : List LogRow)
    (folder : Option String) (en : Bool) :
    (analyze_metrics df folder en).unique_users_by_download ≤
      (analyze_metrics df folder en).unique_users_overall := by
  show nuniqueStr ((downloadRows (analyzedRows df folder)).map (fun r => r.remoteip)) ≤
    nuniqueStr ((analyzedRows df folder).map (fun r => r.remoteip))
  unfold downloadRows
  exact nunique_filter_map_le _ _ _

theorem addIfDifferent_isSome (en : Bool) (d i : List (String × Nat)) :
    (addIfDifferent en d i).isSome = true ↔ en = true ∧ dictBEq d i = false := by
  unfold addIfDifferent
  cases en <;> cases h : dictBEq d i <;> simp [h]

/-- C5: an interaction-variant ranking is present in the analyze_metrics
result exactly when the interaction flag is on and the interaction ranking
differs (as a Python dict) from the download ranking, for each of the
files, locations and referrers rankings. -/
theorem analyze_metrics_interaction_variants (df : List LogRow)
    (folder : Option String) (en : Bool) :
    ((analyze_metrics df folder en).popular_files_by_interaction.isSome = true ↔
      en = true ∧
      dictBEq ((valueCounts ((downloadRows (analyzedRows df folder)).map
          (fun r => r.key))).take 10)
        ((valueCounts ((interactionRows (analyzedRows df folder)).map
          (fun r => r.key))).take 10) = false) ∧
    ((analyze_metrics df folder en).popular_locations_by_interaction.isSome = true ↔
      en = true ∧
      dictBEq ((valueCounts ((downloadRows (analyzedRows df folder)).map
          (fun r => r.country))).take 5)
        ((valueCounts ((interactionRows (analyzedRows df folder)).map
          (fun r => r.country))).take 5) = false) ∧
    ((analyze_metrics df folder en).top_referrers_by_interaction.isSome = true ↔
      en = true ∧
      dictBEq ((valueCounts ((downloadRows (analyzedRows df folder)).map
          (fun r => r.referrer))).take 5)
        ((valueCounts ((interactionRows (analyzedRows df folder)).map
          (fun r => r.referrer))).take 5) = false) := by
  refine ⟨?_, ?_, ?_⟩ <;> exact addIfDifferent_isSome _ _ _

/-- The two-row scenario table of the spec: a GET of TM/proj1/f.geojson
sending 2048 bytes from 1.2.3.4 and a PUT of the same key of size 4096
from 5.6.7.8, with the derived columns computed as prepare_df does. -/
def scenarioRows : List LogRow :=
  [{ key := "TM/proj1/f.geojson", method := "GET", remoteip := "1.2.3.4",
     country := "N/A", referrer := "Direct or N/A", bytessent := 2048,
     objectsize := 0, top_level_key := prepare_top_level_key "TM/proj1/f.geojson" },
   { key := "TM/proj1/f.geojson", method := "PUT", remoteip := "5.6.7.8",
     country := "N/A", referrer := "Direct or N/A", bytessent := 0,
     objectsize := 4096, top_level_key := prepare_top_level_key "TM/proj1/f.geojson" }]

/-- C6: on the scenario table with folder scope TM, analyze_metrics reports
one file download, one uploaded dataset and two distinct users. -/
theorem analyze_metrics_scenario_tm :
    (analyze_metrics scenarioRows (some "TM") false).total_files_downloads_count = 1 ∧
    (analyze_metrics scenarioRows (some "TM") false).total_dataset_uploaded_count = 1 ∧
    (analyze_metrics scenarioRows (some "TM") false).unique_users_overall = 2 := by
  decide

theorem filter_swap_absorb {α : Type} (s m : α → Bool) (l : List α) :
    (l.filter s).filter m = ((l.filter m).filter s).filter m := by
  induction l with
  | nil => rfl
  | cons x xs ih => cases hs : s x <;> cases hm : m x <;> simp [List.filter_cons, hs, hm, ih]

theorem filter_self_absorb {α : Type} (m : α → Bool) (l : List α) :
    (l.filter m).filter m = l.filter m := by
  induction l with
  | nil => rfl
  | cons x xs ih => cases hm : m x <;> simp [List.filter_cons, hm, ih]

theorem analyzedRows_meta_invariant (df : List LogRow) (folder : Option String) :
    analyzedRows (df.filter (fun r => !strContainsSub r.key "meta.json")) folder =
      analyzedRows df folder := by
  unfold analyzedRows scopeRows
  cases folder with
  | none => exact filter_self_absorb _ df
  | some f => exact (filter_swap_absorb _ _ df).symm

/-- C8: analyze_metrics discards the meta.json rows before computing any
metric, so its result on a table equals its result on the table with all
meta.json rows already removed; no metric is affected by such rows. -/
theorem analyze_metrics_meta_json_invariant (df : List LogRow)
    (folder : Option String) (en : Bool) :
    analyze_metrics df folder en =
      analyze_metrics (df.filter (fun r => !strContainsSub r.key "meta.json")) folder en := by
  unfold analyze_metrics
  rw [analyzedRows_meta_invariant]

/-! ## Claims about top_level_key derivation (C4) -/

/-- C4 (amended): only the src/app.py report variant normalizes the
sentinel: there a row whose key is exactly the sentinel string is assigned
the default top-level category, while the src/utils.py prepare_df variant
derives top_level_key as the first slash-delimited segment with no
normalization, leaving the sentinel key in its own category. -/
theorem sentinel_key_categories :
    app_top_level_key "-" = "default" ∧ prepare_top_level_key "-" = "-" := by
  decide

/-- Counterexample to C4 as stated: in the prepare_df pipeline variant
(src/utils.py line 372) the row with object key exactly the sentinel
string is not assigned the default category. -/
theorem prepare_df_sentinel_key_not_default :
    prepare_top_level_key "-" = "-" ∧ ¬(prepare_top_level_key "-" = "default") := by
  decide

/-! ## Historical filename generation (C10) -/

/-- Embeds the loop body of `get_previous_months_filenames`
(src/utils.py lines 589-599): each step computes the last day of the month
before the running start, takes its month's first day, emits the pair the
filename is formatted from, and continues from that month start. -/
def prevMonthsGo (start : Date) : Nat → List (Date × Date)
  | 0 => []
  | n + 1 =>
    let month_end := predDate ⟨start.year, start.month, 1⟩
    let month_start : Date := ⟨month_end.year, month_end.month, 1⟩
    (month_start, month_end) :: prevMonthsGo month_start n

/-- Embeds `get_previous_months_filenames(start_date, end_date, num_months)`
(src/utils.py lines 585-601).  Both date strings are parsed by the source;
the parsed end date is never used afterwards.  Filenames are the
strftime renderings of the returned month start / month end pairs, a
presentation step that depends only on the pairs. -/
def get_previous_months_filenames (start_date end_date : Date)
    (num_months : Nat := 5) : List (Date × Date) :=
  prevMonthsGo start_date num_months

theorem prevMonthsGo_length : ∀ (n : Nat) (s : Date), (prevMonthsGo s n).length = n := by
  intro n
  induction n with
  | zero => intro s; rfl
  | succ k ih =>
      intro s
      unfold prevMonthsGo
      simp only [List.length_cons]
      rw [ih]

/-- C10: the filename list depends only on the start date and the month
count: two calls differing only in end date agree, and the list always has
exactly num_months entries. -/
theorem get_previous_months_filenames_end_independent (s e1 e2 : Date) (n : Nat) :
    get_previous_months_filenames s e1 n = get_previous_months_filenames s e2 n ∧
    (get_previous_months_filenames s e1 n).length = n :=
  ⟨rfl, prevMonthsGo_length n s⟩
